import Mathlib

/-!
Verification development for the grid-aware data-center simulator.

The simulator's numeric code is embedded shallowly over `ℚ` (Python floats
become exact rationals; every formula is transcribed from the source).
Fallible operations (Python `ZeroDivisionError`) become `Option`-valued.
The one genuinely real-valued quantity, the diurnal outdoor-temperature
sinusoid of `datacenter_optimizer.step`, is modelled over `ℝ` in a separate
section at the end of the definitions.

Source files: it_load_model.py, cooling_model.py, simple_controller.py,
grid_monitor.py, datacenter_optimizer.py.
-/

/-- np.clip(x, 0, 1): clamp a value into [0, 1]. -/
def clip01 (x : ℚ) : ℚ := min (max x 0) 1

/-- ITLoadModel (it_load_model.py): configuration and mutable state. -/
structure ITLoadModel where
  base_capacity_kw : ℚ
  flex_capacity_kw : ℚ
  num_servers : ℚ
  server_idle_power_w : ℚ
  server_max_power_w : ℚ
  base_workload : ℚ
  flex_workload : ℚ
  current_power_kw : ℚ
  current_heat_btu_hr : ℚ
deriving DecidableEq, Repr

/-- self.total_capacity_kw = base_capacity_kw + flex_capacity_kw
(computed once in __init__; nothing ever mutates the capacities). -/
def ITLoadModel.total_capacity_kw (m : ITLoadModel) : ℚ :=
  m.base_capacity_kw + m.flex_capacity_kw

/-- ITLoadModel.set_workload: both arguments are clamped with np.clip(., 0, 1). -/
def ITLoadModel.set_workload (m : ITLoadModel) (base_util flex_util : ℚ) : ITLoadModel :=
  { m with base_workload := clip01 base_util, flex_workload := clip01 flex_util }

/-- ITLoadModel.compute_power. The Python body divides by
`self.total_capacity_kw` with no guard; a zero total capacity raises
ZeroDivisionError, modelled as `none`. -/
def ITLoadModel.compute_power (m : ITLoadModel) : Option ℚ :=
  if ITLoadModel.total_capacity_kw m = 0 then none
  else
    let base_weight := m.base_capacity_kw / ITLoadModel.total_capacity_kw m
    let flex_weight := m.flex_capacity_kw / ITLoadModel.total_capacity_kw m
    let avg_utilization := m.base_workload * base_weight + m.flex_workload * flex_weight
    let power_per_server_w := m.server_idle_power_w +
      (m.server_max_power_w - m.server_idle_power_w) * avg_utilization
    let total_power_w := power_per_server_w * m.num_servers
    some (total_power_w / 1000)

/-- ITLoadModel.compute_heat: 1 kW = 3412.14 BTU/hr. -/
def ITLoadModel.compute_heat (power_kw : ℚ) : ℚ := power_kw * (341214 / 100)

/-- ITLoadModel.update: recompute power and heat, store both, return heat. -/
def ITLoadModel.update (m : ITLoadModel) : Option (ITLoadModel × ℚ) :=
  match ITLoadModel.compute_power m with
  | none => none
  | some p =>
      let h := ITLoadModel.compute_heat p
      some ({ m with current_power_kw := p, current_heat_btu_hr := h }, h)

/-- The three cooling-mode constants of cooling_model.py. -/
inductive CoolingMode where
  | free_cooling
  | hybrid
  | mechanical
deriving DecidableEq, Repr

/-- CoolingModel (cooling_model.py): configuration and mutable state. -/
structure CoolingModel where
  supply_temp_setpoint : ℚ
  outdoor_temp : ℚ
  chiller_cop : ℚ
  free_cooling_threshold : ℚ
  thermal_mass : ℚ
  target_temp : ℚ
  current_temp : ℚ
  current_mode : CoolingMode
  current_cooling_power_kw : ℚ
  current_pue : ℚ
  fan_pump_overhead : ℚ
deriving DecidableEq, Repr

/-- CoolingModel.set_outdoor_temp. -/
def CoolingModel.set_outdoor_temp (c : CoolingModel) (temp_c : ℚ) : CoolingModel :=
  { c with outdoor_temp := temp_c }

/-- CoolingModel.set_supply_temp. -/
def CoolingModel.set_supply_temp (c : CoolingModel) (temp_c : ℚ) : CoolingModel :=
  { c with supply_temp_setpoint := temp_c }

/-- CoolingModel.compute_free_cooling_ratio: 1.0 when outdoor is at or below
the free-cooling threshold, 0.0 when at or above the target temperature,
linear interpolation otherwise. -/
def CoolingModel.compute_free_cooling_ratio (c : CoolingModel) : ℚ :=
  if c.outdoor_temp ≤ c.free_cooling_threshold then 1
  else if c.target_temp ≤ c.outdoor_temp then 0
  else 1 - (c.outdoor_temp - c.free_cooling_threshold) /
           (c.target_temp - c.free_cooling_threshold)

/-- CoolingModel.determine_cooling_mode: free when the ratio is at least 0.95,
hybrid when it exceeds 0.1, mechanical otherwise. -/
def CoolingModel.determine_cooling_mode (c : CoolingModel) : CoolingMode :=
  let free_frac := CoolingModel.compute_free_cooling_ratio c
  if 95 / 100 ≤ free_frac then CoolingMode.free_cooling
  else if 1 / 10 < free_frac then CoolingMode.hybrid
  else CoolingMode.mechanical

/-- CoolingModel.compute_cooling_power with an explicit mode (the orchestrator
path always passes the freshly computed current mode). The hybrid and
mechanical branches divide by `self.chiller_cop` unguarded; a zero COP raises
ZeroDivisionError, modelled as `none`. -/
def CoolingModel.compute_cooling_power (c : CoolingModel) (heat_load_btu_hr : ℚ)
    (mode : CoolingMode) : Option ℚ :=
  let heat_load_kw := heat_load_btu_hr / (341214 / 100)
  match mode with
  | CoolingMode.free_cooling => some (heat_load_kw * (3 / 100))
  | CoolingMode.hybrid =>
      if c.chiller_cop = 0 then none
      else
        let free_frac := CoolingModel.compute_free_cooling_ratio c
        let mech_load_kw := heat_load_kw * (1 - free_frac)
        let mech_power_kw := mech_load_kw / c.chiller_cop
        let fan_pump_power_kw := heat_load_kw * c.fan_pump_overhead
        some (mech_power_kw + fan_pump_power_kw)
  | CoolingMode.mechanical =>
      if c.chiller_cop = 0 then none
      else
        let chiller_power_kw := heat_load_kw / c.chiller_cop
        let fan_pump_power_kw := heat_load_kw * c.fan_pump_overhead
        some (chiller_power_kw + fan_pump_power_kw)

/-- CoolingModel.compute_pue: guard `it_power_kw <= 0` returns 1.0, else
(IT + cooling + 5% ancillary overhead) / IT. -/
def compute_pue (it_power_kw cooling_power_kw : ℚ) : ℚ :=
  if it_power_kw ≤ 0 then 1
  else
    let other_overhead_kw := it_power_kw * (5 / 100)
    (it_power_kw + cooling_power_kw + other_overhead_kw) / it_power_kw

/-- CoolingModel.update_thermal_state: sets current_temp to the target plus a
damped rise term; the division by thermal mass is guarded in the source. -/
def CoolingModel.update_thermal_state (c : CoolingModel) (heat_load_btu_hr dt : ℚ) :
    CoolingModel :=
  let heat_in_btu := heat_load_btu_hr * (dt / 3600)
  let temp_rise := if 0 < c.thermal_mass then heat_in_btu / c.thermal_mass else 0
  { c with current_temp := c.target_temp + temp_rise * (1 / 10) }

/-- CoolingModel.update: select mode, compute cooling power, update thermal
state, return the new state together with the cooling power. -/
def CoolingModel.update (c : CoolingModel) (dt heat_load_btu_hr : ℚ) :
    Option (CoolingModel × ℚ) :=
  let mode := CoolingModel.determine_cooling_mode c
  match CoolingModel.compute_cooling_power c heat_load_btu_hr mode with
  | none => none
  | some cp =>
      let c' := CoolingModel.update_thermal_state
        { c with current_mode := mode, current_cooling_power_kw := cp }
        heat_load_btu_hr dt
      some (c', cp)

/-- CoolingModel.compute_current_pue: store and return the PUE computed from
the latest cooling power. -/
def CoolingModel.compute_current_pue (c : CoolingModel) (it_power_kw : ℚ) :
    CoolingModel × ℚ :=
  let p := compute_pue it_power_kw c.current_cooling_power_kw
  ({ c with current_pue := p }, p)

/-- The grid-state snapshot a step consumes. In the source this dictionary is
produced by GridSignalMonitor.update (hourly profile lookups plus an unseeded
uniform random perturbation of the stress level) and the orchestrator then
injects the outdoor temperature. Because the stress value is random and the
outdoor temperature is a real-valued sinusoid (modelled exactly in the
real-valued section below), the snapshot enters the step as an explicit
input. -/
structure GridState where
  renewable_pct : ℚ
  grid_stress : ℚ
  price_per_kwh : ℚ
  carbon_intensity_gco2_kwh : ℚ
  outdoor_temp_c : ℚ
deriving DecidableEq, Repr

/-- The dictionary returned by SimpleController.compute_control. The
cooling-mode suggestion is recorded but never consumed by the orchestrator. -/
structure ControlAction where
  workload_base : ℚ
  workload_flex : ℚ
  supply_temp : ℚ
  mode_suggestion : CoolingMode
deriving DecidableEq, Repr

/-- SimpleController (simple_controller.py): configuration and control state. -/
structure SimpleController where
  adjustment_rate : ℚ
  renewable_threshold_high : ℚ
  renewable_threshold_low : ℚ
  stress_threshold_high : ℚ
  target_base_util : ℚ
  target_flex_util : ℚ
deriving DecidableEq, Repr

/-- SimpleController.compute_control. The snapshot's flexible-utilization
level is `current_flex` (the source reads system_state['it_load']
['flex_workload']); the grid inputs come from the grid-state dictionary.
Returns the updated controller state and the control dictionary. -/
def SimpleController.compute_control (ctl : SimpleController) (current_flex : ℚ)
    (g : GridState) : SimpleController × ControlAction :=
  let base_target : ℚ := 7 / 10
  let flex_target :=
    if ctl.renewable_threshold_high ≤ g.renewable_pct ∧ g.grid_stress < 1 / 2 then
      min 1 (current_flex + ctl.adjustment_rate)
    else if g.renewable_pct ≤ ctl.renewable_threshold_low ∨
            ctl.stress_threshold_high ≤ g.grid_stress then
      max (1 / 10) (current_flex - ctl.adjustment_rate)
    else current_flex
  let cooling :=
    if g.outdoor_temp_c < 15 then (CoolingMode.free_cooling, (20 : ℚ))
    else if g.outdoor_temp_c < 25 then (CoolingMode.hybrid, (18 : ℚ))
    else (CoolingMode.mechanical, (16 : ℚ))
  ({ ctl with target_base_util := base_target, target_flex_util := flex_target },
   { workload_base := base_target, workload_flex := flex_target,
     supply_temp := cooling.2, mode_suggestion := cooling.1 })

/-- The metrics history of DataCenterOptimizer: fourteen parallel append-only
series, one entry appended per step.  Timestamps are seconds (rational, since
the configured timestep is). -/
structure History where
  time : List ℚ
  it_power_kw : List ℚ
  cooling_power_kw : List ℚ
  total_power_kw : List ℚ
  pue : List ℚ
  base_workload : List ℚ
  flex_workload : List ℚ
  renewable_pct : List ℚ
  grid_stress : List ℚ
  price_per_kwh : List ℚ
  carbon_intensity : List ℚ
  cooling_mode : List CoolingMode
  total_cost : List ℚ
  total_carbon : List ℚ
deriving DecidableEq, Repr

/-- The fourteen history appends performed at the end of
DataCenterOptimizer.step, in source order. -/
def History.append (h : History) (t it cp tp pu bw fw rp gs pr ci : ℚ)
    (cm : CoolingMode) (tc tcar : ℚ) : History :=
  { time := h.time ++ [t],
    it_power_kw := h.it_power_kw ++ [it],
    cooling_power_kw := h.cooling_power_kw ++ [cp],
    total_power_kw := h.total_power_kw ++ [tp],
    pue := h.pue ++ [pu],
    base_workload := h.base_workload ++ [bw],
    flex_workload := h.flex_workload ++ [fw],
    renewable_pct := h.renewable_pct ++ [rp],
    grid_stress := h.grid_stress ++ [gs],
    price_per_kwh := h.price_per_kwh ++ [pr],
    carbon_intensity := h.carbon_intensity ++ [ci],
    cooling_mode := h.cooling_mode ++ [cm],
    total_cost := h.total_cost ++ [tc],
    total_carbon := h.total_carbon ++ [tcar] }

/-- Every series of the history has length `n`. -/
def History.allLen (h : History) (n : ℕ) : Prop :=
  h.time.length = n ∧ h.it_power_kw.length = n ∧ h.cooling_power_kw.length = n ∧
  h.total_power_kw.length = n ∧ h.pue.length = n ∧ h.base_workload.length = n ∧
  h.flex_workload.length = n ∧ h.renewable_pct.length = n ∧
  h.grid_stress.length = n ∧ h.price_per_kwh.length = n ∧
  h.carbon_intensity.length = n ∧ h.cooling_mode.length = n ∧
  h.total_cost.length = n ∧ h.total_carbon.length = n

instance (h : History) (n : ℕ) : Decidable (History.allLen h n) := by
  unfold History.allLen; infer_instance

/-- DataCenterOptimizer (datacenter_optimizer.py): the orchestrator state.
`current_time` is seconds on the orchestrator's own clock. -/
structure DataCenterOptimizer where
  it_load : ITLoadModel
  cooling : CoolingModel
  controller : SimpleController
  timestep : ℚ
  current_time : ℚ
  history : History
deriving DecidableEq, Repr

/-- DataCenterOptimizer.step, transcribed in source order.  The grid snapshot
`g` stands for the dictionary returned by GridSignalMonitor.update with the
orchestrator's synthetic outdoor temperature already injected (the randomness
of the stress signal and the real-valued temperature sinusoid make it an
input; the exact temperature computation is modelled in the real-valued
section below).  `none` models the ZeroDivisionError paths (zero total IT
capacity, zero chiller COP in a mechanical or hybrid step). -/
def DataCenterOptimizer.step (o : DataCenterOptimizer) (g : GridState) :
    Option DataCenterOptimizer :=
  let cooling₀ := CoolingModel.set_outdoor_temp o.cooling g.outdoor_temp_c
  let ctl := SimpleController.compute_control o.controller o.it_load.flex_workload g
  let it₁ := ITLoadModel.set_workload o.it_load ctl.2.workload_base ctl.2.workload_flex
  let cooling₁ := CoolingModel.set_supply_temp cooling₀ ctl.2.supply_temp
  match ITLoadModel.update it₁ with
  | none => none
  | some (it₂, heat_load) =>
    match CoolingModel.update cooling₁ o.timestep heat_load with
    | none => none
    | some (cooling₂, cooling_power) =>
      let it_power := it₂.current_power_kw
      let pue_pair := CoolingModel.compute_current_pue cooling₂ it_power
      let total_power := it_power + cooling_power
      let energy_kwh := total_power * (o.timestep / 3600)
      let cost := energy_kwh * g.price_per_kwh
      let carbon := energy_kwh * g.carbon_intensity_gco2_kwh
      some { o with
        it_load := it₂,
        cooling := pue_pair.1,
        controller := ctl.1,
        current_time := o.current_time + o.timestep,
        history := History.append o.history o.current_time it_power cooling_power
          total_power pue_pair.2 it₂.base_workload it₂.flex_workload
          g.renewable_pct g.grid_stress g.price_per_kwh
          g.carbon_intensity_gco2_kwh pue_pair.1.current_mode cost carbon }

/-- num_steps = int((duration_hours * 3600) / timestep): true division then
truncation; a non-positive value yields an empty Python range. -/
def numSteps (timestep duration_hours : ℚ) : ℕ :=
  (Int.floor (duration_hours * 3600 / timestep)).toNat

/-- Outcome of DataCenterOptimizer.run's stepping loop: either the loop
completed, or an exception escaped with the optimizer in the given state. -/
inductive RunOutcome where
  | ok (s : DataCenterOptimizer)
  | crashed (s : DataCenterOptimizer)
deriving DecidableEq, Repr

/-- The loop body of DataCenterOptimizer.run.  After each step the progress
print evaluates `i % (3600 // timestep)`; when the floor quotient is zero
(timestep above 3600 seconds) Python raises ZeroDivisionError, so the loop
dies right after its first step. A failing step (ZeroDivisionError inside
step) likewise escapes. -/
def runAux (envs : ℕ → GridState) : ℕ → ℕ → DataCenterOptimizer → RunOutcome
  | 0, _, o => RunOutcome.ok o
  | k + 1, i, o =>
      match DataCenterOptimizer.step o (envs i) with
      | none => RunOutcome.crashed o
      | some o' =>
          if Int.floor ((3600 : ℚ) / o.timestep) = 0 then RunOutcome.crashed o'
          else runAux envs k (i + 1) o'

/-- The stepping loop of DataCenterOptimizer.run(duration_hours). -/
def DataCenterOptimizer.run (o : DataCenterOptimizer) (envs : ℕ → GridState)
    (duration_hours : ℚ) : RunOutcome :=
  runAux envs (numSteps o.timestep duration_hours) 0 o

/-- np.mean of a list: nan / undefined on an empty array (modelled `none`). -/
def npMean (l : List ℚ) : Option ℚ :=
  match l with
  | [] => none
  | x :: xs => some ((x :: xs).sum / (x :: xs).length)

/-- np.min of a list: raises ValueError on an empty array (modelled `none`). -/
def npMin (l : List ℚ) : Option ℚ :=
  match l with
  | [] => none
  | x :: xs => some (xs.foldl min x)

/-- np.max of a list: raises ValueError on an empty array (modelled `none`). -/
def npMax (l : List ℚ) : Option ℚ :=
  match l with
  | [] => none
  | x :: xs => some (xs.foldl max x)

/-- The summary dictionary built by DataCenterOptimizer.get_results. -/
structure Summary where
  total_energy_kwh : ℚ
  total_cost_usd : ℚ
  total_carbon_kg : ℚ
  avg_pue : ℚ
  min_pue : ℚ
  max_pue : ℚ
  avg_renewable_pct : ℚ
  avg_flex_workload : ℚ
deriving DecidableEq, Repr

/-- DataCenterOptimizer.get_results.  On an empty history np.min / np.max of
the PUE series raise ValueError (and the np.mean calls produce nan), so no
summary is returned: modelled as `none`. -/
def DataCenterOptimizer.get_results (o : DataCenterOptimizer) : Option Summary :=
  match npMean o.history.pue, npMin o.history.pue, npMax o.history.pue,
        npMean o.history.renewable_pct, npMean o.history.flex_workload with
  | some avg, some mn, some mx, some ar, some af =>
      some { total_energy_kwh := o.history.total_power_kw.sum * (o.timestep / 3600),
             total_cost_usd := o.history.total_cost.sum,
             total_carbon_kg := o.history.total_carbon.sum / 1000,
             avg_pue := avg, min_pue := mn, max_pue := mx,
             avg_renewable_pct := ar, avg_flex_workload := af }
  | _, _, _, _, _ => none

/-- DataCenterOptimizer.run returns self.get_results(): the whole call
produces a results structure only when the loop completed and the history is
non-empty. -/
def DataCenterOptimizer.run_results (o : DataCenterOptimizer) (envs : ℕ → GridState)
    (duration_hours : ℚ) : Option Summary :=
  match DataCenterOptimizer.run o envs duration_hours with
  | RunOutcome.ok s => DataCenterOptimizer.get_results s
  | RunOutcome.crashed _ => none

/-- States reachable from `o₀` by executing successful orchestrator steps
under arbitrary grid snapshots — i.e. any number of simulation steps of any
grid-signal sequence. -/
inductive Reachable (o₀ : DataCenterOptimizer) : DataCenterOptimizer → Prop where
  | refl : Reachable o₀ o₀
  | tail {s s' : DataCenterOptimizer} {g : GridState} :
      Reachable o₀ s → DataCenterOptimizer.step s g = some s' → Reachable o₀ s'

/-- The default IT-load configuration of create_default_config, with the
initial workload state of ITLoadModel.__init__ (base 0.7, flex 0.3). -/
def default_it_load : ITLoadModel :=
  { base_capacity_kw := 500, flex_capacity_kw := 500, num_servers := 1000,
    server_idle_power_w := 100, server_max_power_w := 300,
    base_workload := 7 / 10, flex_workload := 3 / 10,
    current_power_kw := 0, current_heat_btu_hr := 0 }

/-- An IT-load model configured with both capacities zero. -/
def zero_capacity_it_load : ITLoadModel :=
  { default_it_load with base_capacity_kw := 0, flex_capacity_kw := 0 }

/-- The default cooling configuration of create_default_config, with the
initial state of CoolingModel.__init__. -/
def default_cooling : CoolingModel :=
  { supply_temp_setpoint := 18, outdoor_temp := 20, chiller_cop := 7 / 2,
    free_cooling_threshold := 15, thermal_mass := 50000, target_temp := 22,
    current_temp := 22, current_mode := CoolingMode.hybrid,
    current_cooling_power_kw := 0, current_pue := 6 / 5,
    fan_pump_overhead := 1 / 10 }

/-- The default controller configuration of create_default_config, with the
initial control state of SimpleController.__init__. -/
def default_controller : SimpleController :=
  { adjustment_rate := 1 / 5, renewable_threshold_high := 3 / 5,
    renewable_threshold_low := 3 / 10, stress_threshold_high := 7 / 10,
    target_base_util := 7 / 10, target_flex_util := 3 / 10 }

/-- The empty history a freshly constructed orchestrator starts from. -/
def empty_history : History :=
  { time := [], it_power_kw := [], cooling_power_kw := [], total_power_kw := [],
    pue := [], base_workload := [], flex_workload := [], renewable_pct := [],
    grid_stress := [], price_per_kwh := [], carbon_intensity := [],
    cooling_mode := [], total_cost := [], total_carbon := [] }

/-- A freshly constructed orchestrator with default components, the given
timestep, and the given start time (seconds). -/
def mkOptimizer (ts start : ℚ) : DataCenterOptimizer :=
  { it_load := default_it_load, cooling := default_cooling,
    controller := default_controller, timestep := ts, current_time := start,
    history := empty_history }

/-- A concrete grid snapshot used to instantiate witnesses. -/
def sample_grid : GridState :=
  { renewable_pct := 1 / 2, grid_stress := 1 / 5, price_per_kwh := 12 / 100,
    carbon_intensity_gco2_kwh := 300, outdoor_temp_c := 20 }

/-- A constant grid-signal sequence for witnesses. -/
def const_grid_seq : ℕ → GridState := fun _ => sample_grid

/-- A one-step state used to witness the energy-aggregation theorem. -/
def sample_state : DataCenterOptimizer :=
  { mkOptimizer 300 0 with
    history := History.append empty_history 0 100 20 120 (5 / 4) (7 / 10) (3 / 10)
      (1 / 2) (1 / 5) (12 / 100) 300 CoolingMode.hybrid (4 / 10) 3000 }

/-- The summary `sample_state.get_results` produces. -/
def sample_summary : Summary :=
  { total_energy_kwh := 10, total_cost_usd := 4 / 10, total_carbon_kg := 3,
    avg_pue := 5 / 4, min_pue := 5 / 4, max_pue := 5 / 4,
    avg_renewable_pct := 1 / 2, avg_flex_workload := 3 / 10 }

/-- The post-update cooling state expected in the C9 witness: the default
model pushed supply setpoint 16 at outdoor 20, updated with zero heat. -/
def w9_pair₁ : CoolingModel × ℚ :=
  ({ default_cooling with
     supply_temp_setpoint := 16
     outdoor_temp := 20
     current_mode := CoolingMode.hybrid
     current_cooling_power_kw := 0 }, 0)

/-- The post-update cooling state expected in the C9 witness: a variant with
chiller COP 4 pushed supply setpoint 20 at outdoor 20, updated with zero
heat. -/
def w9_pair₂ : CoolingModel × ℚ :=
  ({ default_cooling with
     chiller_cop := 4
     supply_temp_setpoint := 20
     outdoor_temp := 20
     current_mode := CoolingMode.hybrid
     current_cooling_power_kw := 0 }, 0)

/-- datetime .hour for a clock reading of `t` seconds since a midnight. -/
def hour_of (t : ℕ) : ℕ := t / 3600 % 24

/-- The orchestrator's clock when step `i` begins: `step` reads
`self.current_time.hour` before advancing, and `current_time` has been
advanced by one timestep at the end of each earlier step. -/
def orch_time (start dt i : ℕ) : ℕ := start + i * dt

/-- The grid monitor's clock inside step `i`: GridSignalMonitor.update first
advances its clock by `dt` and only then snapshots the state, so the
snapshot of step `i` carries the hour of `gstart + (i+1)·dt`. -/
def grid_time (gstart dt i : ℕ) : ℕ := gstart + (i + 1) * dt

/-- The `hour` field of the grid-state dictionary captured in step `i`. -/
def grid_state_hour (gstart dt i : ℕ) : ℕ := hour_of (grid_time gstart dt i)

/-- The diurnal sinusoid of DataCenterOptimizer.step:
outdoor = 15 + 10·sin((hour − 6)·π/12). -/
noncomputable def outdoor_temp_at (h : ℕ) : ℝ :=
  15 + 10 * Real.sin (((h : ℝ) - 6) * Real.pi / 12)

/-- The outdoor temperature step `i` injects into the grid state and pushes
to the cooling model: the sinusoid evaluated at the hour of the
orchestrator's own (not yet advanced) clock. -/
noncomputable def injected_outdoor (start dt i : ℕ) : ℝ :=
  outdoor_temp_at (hour_of (orch_time start dt i))

/-- The free-cooling ratio is never negative. -/
lemma free_cooling_ratio_nonneg (c : CoolingModel) :
    0 ≤ CoolingModel.compute_free_cooling_ratio c := by
  unfold CoolingModel.compute_free_cooling_ratio
  split_ifs with h1 h2
  · norm_num
  · norm_num
  · push_neg at h1 h2
    have hd : (0 : ℚ) < c.target_temp - c.free_cooling_threshold := by linarith
    have hle : (c.outdoor_temp - c.free_cooling_threshold) /
        (c.target_temp - c.free_cooling_threshold) ≤ 1 :=
      (div_le_one hd).mpr (by linarith)
    linarith

/-- The free-cooling ratio never exceeds one. -/
lemma free_cooling_ratio_le_one (c : CoolingModel) :
    CoolingModel.compute_free_cooling_ratio c ≤ 1 := by
  unfold CoolingModel.compute_free_cooling_ratio
  split_ifs with h1 h2
  · norm_num
  · norm_num
  · push_neg at h1 h2
    have hd : (0 : ℚ) < c.target_temp - c.free_cooling_threshold := by linarith
    have hge : 0 ≤ (c.outdoor_temp - c.free_cooling_threshold) /
        (c.target_temp - c.free_cooling_threshold) :=
      div_nonneg (by linarith) (by linarith)
    linarith

/-- The free-cooling ratio only reads the outdoor temperature and the two
temperature thresholds. -/
lemma free_cooling_ratio_congr (c c' : CoolingModel)
    (ho : c.outdoor_temp = c'.outdoor_temp)
    (hthr : c.free_cooling_threshold = c'.free_cooling_threshold)
    (htgt : c.target_temp = c'.target_temp) :
    CoolingModel.compute_free_cooling_ratio c =
      CoolingModel.compute_free_cooling_ratio c' := by
  unfold CoolingModel.compute_free_cooling_ratio
  rw [ho, hthr, htgt]

/-- The mode classifier only reads the outdoor temperature and the two
temperature thresholds. -/
lemma determine_cooling_mode_congr (c c' : CoolingModel)
    (ho : c.outdoor_temp = c'.outdoor_temp)
    (hthr : c.free_cooling_threshold = c'.free_cooling_threshold)
    (htgt : c.target_temp = c'.target_temp) :
    CoolingModel.determine_cooling_mode c = CoolingModel.determine_cooling_mode c' := by
  unfold CoolingModel.determine_cooling_mode
  rw [free_cooling_ratio_congr c c' ho hthr htgt]

/-- The mode recorded by CoolingModel.update is the classifier's verdict on
the state entering the update. -/
lemma update_records_mode (c : CoolingModel) (dt heat : ℚ) (p : CoolingModel × ℚ)
    (e : CoolingModel.update c dt heat = some p) :
    p.1.current_mode = CoolingModel.determine_cooling_mode c := by
  unfold CoolingModel.update at e
  dsimp only at e
  rcases hcp : CoolingModel.compute_cooling_power c heat
      (CoolingModel.determine_cooling_mode c) with _ | cp
  · rw [hcp] at e; exact absurd e (by simp)
  · rw [hcp] at e
    obtain rfl := (Option.some.injEq _ _).mp e
    rfl

/-- clip01 is the identity on [0, 1]. -/
lemma clip01_eq_self {x : ℚ} (h0 : 0 ≤ x) (h1 : x ≤ 1) : clip01 x = x := by
  unfold clip01
  rw [max_eq_left h0, min_eq_left h1]

/-- Given a snapshot flex level in [0.1, 1] and a non-negative adjustment
rate, the controller's flex target stays in [0.1, 1]. -/
lemma flex_target_bounds (ctl : SimpleController) (f : ℚ) (g : GridState)
    (hr : 0 ≤ ctl.adjustment_rate) (hf0 : 1 / 10 ≤ f) (hf1 : f ≤ 1) :
    1 / 10 ≤ (SimpleController.compute_control ctl f g).2.workload_flex ∧
    (SimpleController.compute_control ctl f g).2.workload_flex ≤ 1 := by
  unfold SimpleController.compute_control
  dsimp only
  split_ifs with h1 h2
  · exact ⟨le_min (by norm_num) (by linarith), min_le_left _ _⟩
  · exact ⟨le_max_left _ _, max_le (by norm_num) (by linarith)⟩
  · exact ⟨hf0, hf1⟩

/-- Given a snapshot flex level in [0.1, 1] and a non-negative adjustment
rate, the controller's flex target moves by at most the adjustment rate. -/
lemma flex_target_close (ctl : SimpleController) (f : ℚ) (g : GridState)
    (hr : 0 ≤ ctl.adjustment_rate) (hf0 : 1 / 10 ≤ f) (hf1 : f ≤ 1) :
    |(SimpleController.compute_control ctl f g).2.workload_flex - f| ≤
      ctl.adjustment_rate := by
  unfold SimpleController.compute_control
  dsimp only
  split_ifs with h1 h2
  · have hm1 : min 1 (f + ctl.adjustment_rate) ≤ f + ctl.adjustment_rate :=
      min_le_right _ _
    have hm2 : f ≤ min 1 (f + ctl.adjustment_rate) := le_min (by linarith) (by linarith)
    rw [abs_le]
    exact ⟨by linarith, by linarith⟩
  · have hm1 : f - ctl.adjustment_rate ≤ max (1 / 10) (f - ctl.adjustment_rate) :=
      le_max_right _ _
    have hm2 : max (1 / 10) (f - ctl.adjustment_rate) ≤ f :=
      max_le (by linarith) (by linarith)
    rw [abs_le]
    exact ⟨by linarith, by linarith⟩
  · simpa using hr

/-- A successful step keeps the controller's adjustment rate. -/
lemma step_keeps_rate (o s' : DataCenterOptimizer) (g : GridState)
    (h : DataCenterOptimizer.step o g = some s') :
    s'.controller.adjustment_rate = o.controller.adjustment_rate := by
  unfold DataCenterOptimizer.step at h
  dsimp only at h
  split at h
  · exact absurd h (by simp)
  · split at h
    · exact absurd h (by simp)
    · obtain rfl := (Option.some.injEq _ _).mp h
      rfl

/-- A successful step stores the clamped controller flex target as the new
flexible-utilization level. -/
lemma step_stores_flex (o s' : DataCenterOptimizer) (g : GridState)
    (h : DataCenterOptimizer.step o g = some s') :
    s'.it_load.flex_workload =
      clip01 (SimpleController.compute_control o.controller
        o.it_load.flex_workload g).2.workload_flex := by
  unfold DataCenterOptimizer.step at h
  dsimp only at h
  split at h
  · exact absurd h (by simp)
  · rename_i it₂heat heq
    split at h
    · exact absurd h (by simp)
    · obtain rfl := (Option.some.injEq _ _).mp h
      dsimp only
      unfold ITLoadModel.update at heq
      split at heq
      · exact absurd heq (by simp)
      · have hpair := (Option.some.injEq _ _).mp heq
        injection hpair with h1 h2
        subst h1
        rfl

/-- Along any run under any grid-signal sequence, the adjustment rate is
preserved and the stored flexible-utilization level stays in [0.1, 1]. -/
lemma reachable_flex_inv (o₀ s : DataCenterOptimizer)
    (h0a : 1 / 10 ≤ o₀.it_load.flex_workload) (h0b : o₀.it_load.flex_workload ≤ 1)
    (hr : 0 ≤ o₀.controller.adjustment_rate) (hs : Reachable o₀ s) :
    s.controller.adjustment_rate = o₀.controller.adjustment_rate ∧
    1 / 10 ≤ s.it_load.flex_workload ∧ s.it_load.flex_workload ≤ 1 := by
  induction hs with
  | refl => exact ⟨rfl, h0a, h0b⟩
  | @tail s s' g hreach hstep ih =>
      have hrate := step_keeps_rate s s' g hstep
      have hflex := step_stores_flex s s' g hstep
      have hr' : 0 ≤ s.controller.adjustment_rate := ih.1 ▸ hr
      have hb := flex_target_bounds s.controller s.it_load.flex_workload g
        hr' ih.2.1 ih.2.2
      refine ⟨hrate.trans ih.1, ?_, ?_⟩
      · rw [hflex, clip01_eq_self (by linarith [hb.1]) hb.2]
        exact hb.1
      · rw [hflex, clip01_eq_self (by linarith [hb.1]) hb.2]
        exact hb.2

/-- A successful step replaces the history by the old history with exactly
one entry appended to every series (so earlier entries are never mutated). -/
lemma step_append_hist (o s' : DataCenterOptimizer) (g : GridState)
    (h : DataCenterOptimizer.step o g = some s') :
    ∃ t it cp tp pu bw fw rp gs pr ci cm tc tcar,
      s'.history = History.append o.history t it cp tp pu bw fw rp gs pr ci cm tc tcar := by
  unfold DataCenterOptimizer.step at h
  dsimp only at h
  split at h
  · exact absurd h (by simp)
  · split at h
    · exact absurd h (by simp)
    · obtain rfl := (Option.some.injEq _ _).mp h
      exact ⟨_, _, _, _, _, _, _, _, _, _, _, _, _, _, rfl⟩

/-- Appending one record takes every series from length n to length n+1. -/
lemma allLen_append (h : History) (n : ℕ) (hl : History.allLen h n)
    (t it cp tp pu bw fw rp gs pr ci : ℚ) (cm : CoolingMode) (tc tcar : ℚ) :
    History.allLen (History.append h t it cp tp pu bw fw rp gs pr ci cm tc tcar)
      (n + 1) := by
  unfold History.allLen at hl
  obtain ⟨h1, h2, h3, h4, h5, h6, h7, h8, h9, h10, h11, h12, h13, h14⟩ := hl
  unfold History.allLen History.append
  simp [h1, h2, h3, h4, h5, h6, h7, h8, h9, h10, h11, h12, h13, h14]

/-- A successful step takes every history series from length n to n+1. -/
lemma step_allLen (o s' : DataCenterOptimizer) (g : GridState) (n : ℕ)
    (h : DataCenterOptimizer.step o g = some s')
    (hl : History.allLen o.history n) : History.allLen s'.history (n + 1) := by
  obtain ⟨t, it, cp, tp, pu, bw, fw, rp, gs, pr, ci, cm, tc, tcar, hh⟩ :=
    step_append_hist o s' g h
  rw [hh]
  exact allLen_append o.history n hl t it cp tp pu bw fw rp gs pr ci cm tc tcar

/-- compute_cooling_power succeeds whenever the chiller COP is non-zero. -/
lemma compute_cooling_power_isSome (c : CoolingModel) (heat : ℚ) (mode : CoolingMode)
    (h2 : c.chiller_cop ≠ 0) :
    ∃ v, CoolingModel.compute_cooling_power c heat mode = some v := by
  cases mode with
  | free_cooling => exact ⟨_, rfl⟩
  | hybrid =>
      unfold CoolingModel.compute_cooling_power
      dsimp only
      rw [if_neg h2]
      exact ⟨_, rfl⟩
  | mechanical =>
      unfold CoolingModel.compute_cooling_power
      dsimp only
      rw [if_neg h2]
      exact ⟨_, rfl⟩

/-- A step succeeds whenever the IT capacities do not sum to zero and the
chiller COP is non-zero (the only two unguarded divisions on the step path). -/
lemma step_isSome (o : DataCenterOptimizer) (g : GridState)
    (h1 : ITLoadModel.total_capacity_kw o.it_load ≠ 0)
    (h2 : o.cooling.chiller_cop ≠ 0) :
    ∃ s', DataCenterOptimizer.step o g = some s' := by
  unfold DataCenterOptimizer.step
  dsimp only
  obtain ⟨p, hp⟩ : ∃ p, ITLoadModel.update (ITLoadModel.set_workload o.it_load
      (SimpleController.compute_control o.controller o.it_load.flex_workload g).2.workload_base
      (SimpleController.compute_control o.controller o.it_load.flex_workload g).2.workload_flex)
      = some p := by
    unfold ITLoadModel.update ITLoadModel.compute_power
    rw [if_neg (show ¬ ITLoadModel.total_capacity_kw (ITLoadModel.set_workload o.it_load
      (SimpleController.compute_control o.controller o.it_load.flex_workload g).2.workload_base
      (SimpleController.compute_control o.controller o.it_load.flex_workload g).2.workload_flex)
      = 0 from h1)]
    exact ⟨_, rfl⟩
  obtain ⟨it₂, heat⟩ := p
  rw [hp]
  dsimp only
  obtain ⟨v, hv⟩ := compute_cooling_power_isSome
    (CoolingModel.set_supply_temp (CoolingModel.set_outdoor_temp o.cooling g.outdoor_temp_c)
      (SimpleController.compute_control o.controller o.it_load.flex_workload g).2.supply_temp)
    heat
    (CoolingModel.determine_cooling_mode
      (CoolingModel.set_supply_temp (CoolingModel.set_outdoor_temp o.cooling g.outdoor_temp_c)
        (SimpleController.compute_control o.controller o.it_load.flex_workload g).2.supply_temp))
    h2
  unfold CoolingModel.update
  dsimp only
  rw [hv]
  exact ⟨_, rfl⟩

/-- Mapping multiplication by a constant over a list multiplies the sum. -/
lemma sum_map_mul_const (l : List ℚ) (c : ℚ) :
    (l.map (fun x => x * c)).sum = l.sum * c := by
  induction l with
  | nil => simp
  | cons x xs ih => simp [ih, add_mul]

/-- C2: from the initial flexible-utilization level 0.3 and for any
adjustment rate in [0, 1], after any number of successful simulation steps
under any grid-signal sequence, the controller's returned workload_flex
target lies in [0.1, 1.0] and differs from the flex level read from the
system-state snapshot by at most the configured adjustment rate. -/
theorem C2_flex_target_invariant (o₀ s : DataCenterOptimizer) (g : GridState)
    (h0 : o₀.it_load.flex_workload = 3 / 10)
    (hr0 : 0 ≤ o₀.controller.adjustment_rate)
    (hr1 : o₀.controller.adjustment_rate ≤ 1)
    (hs : Reachable o₀ s) :
    (1 / 10 ≤ (SimpleController.compute_control s.controller
        s.it_load.flex_workload g).2.workload_flex ∧
      (SimpleController.compute_control s.controller
        s.it_load.flex_workload g).2.workload_flex ≤ 1) ∧
    |(SimpleController.compute_control s.controller
        s.it_load.flex_workload g).2.workload_flex -
      s.it_load.flex_workload| ≤ o₀.controller.adjustment_rate := by
  have hinv := reachable_flex_inv o₀ s (by rw [h0]; norm_num) (by rw [h0]; norm_num)
    hr0 hs
  have hr' : 0 ≤ s.controller.adjustment_rate := hinv.1 ▸ hr0
  refine ⟨flex_target_bounds s.controller s.it_load.flex_workload g hr'
    hinv.2.1 hinv.2.2, ?_⟩
  have := flex_target_close s.controller s.it_load.flex_workload g hr'
    hinv.2.1 hinv.2.2
  rw [← hinv.1]
  exact this

/-- Witness for C2: the default orchestrator (flex 0.3, rate 0.2) at the
start state under the sample grid snapshot. -/
theorem C2_flex_target_invariant_witness :
    (1 / 10 ≤ (SimpleController.compute_control (mkOptimizer 300 0).controller
        (mkOptimizer 300 0).it_load.flex_workload sample_grid).2.workload_flex ∧
      (SimpleController.compute_control (mkOptimizer 300 0).controller
        (mkOptimizer 300 0).it_load.flex_workload sample_grid).2.workload_flex ≤ 1) ∧
    |(SimpleController.compute_control (mkOptimizer 300 0).controller
        (mkOptimizer 300 0).it_load.flex_workload sample_grid).2.workload_flex -
      (mkOptimizer 300 0).it_load.flex_workload| ≤
      (mkOptimizer 300 0).controller.adjustment_rate :=
  C2_flex_target_invariant (mkOptimizer 300 0) (mkOptimizer 300 0) sample_grid rfl
    (by norm_num [mkOptimizer, default_controller])
    (by norm_num [mkOptimizer, default_controller]) Reachable.refl

/-- C4: compute_pue(itPower, coolingPower) returns exactly 1.0 whenever
itPower ≤ 0; for every itPower > 0 it returns
(itPower + coolingPower + 0.05·itPower) / itPower, which is at least 1.0 for
every non-negative coolingPower. -/
theorem C4_compute_pue_spec (it cool : ℚ) :
    (it ≤ 0 → compute_pue it cool = 1) ∧
    (0 < it → compute_pue it cool = (it + cool + (5 / 100) * it) / it) ∧
    (0 < it → 0 ≤ cool → 1 ≤ compute_pue it cool) := by
  refine ⟨fun h => by simp [compute_pue, h], fun h => ?_, fun h hc => ?_⟩
  · simp only [compute_pue, if_neg (not_le.mpr h)]
    ring_nf
  · simp only [compute_pue, if_neg (not_le.mpr h)]
    rw [le_div_iff h]
    nlinarith

/-- Witness for C4 at itPower = −1 (guard branch) and itPower = 100,
coolingPower = 20 (formula and lower-bound branches). -/
theorem C4_compute_pue_spec_witness :
    compute_pue (-1) 5 = 1 ∧
    compute_pue 100 20 = (100 + 20 + (5 / 100) * 100) / 100 ∧
    1 ≤ compute_pue 100 20 :=
  ⟨(C4_compute_pue_spec (-1) 5).1 (by norm_num),
   (C4_compute_pue_spec 100 20).2.1 (by norm_num),
   (C4_compute_pue_spec 100 20).2.2 (by norm_num) (by norm_num)⟩

/-- C5: the free-cooling ratio is 1.0 at or below the free-cooling threshold,
0.0 at or above the target temperature (the claim's regime, threshold below
target), the stated linear interpolation strictly between the two, and
monotonically non-increasing in the outdoor temperature. -/
theorem C5_free_cooling_ratio_spec (c : CoolingModel) :
    (c.outdoor_temp ≤ c.free_cooling_threshold →
      CoolingModel.compute_free_cooling_ratio c = 1) ∧
    (c.free_cooling_threshold < c.target_temp → c.target_temp ≤ c.outdoor_temp →
      CoolingModel.compute_free_cooling_ratio c = 0) ∧
    (c.free_cooling_threshold < c.outdoor_temp → c.outdoor_temp < c.target_temp →
      CoolingModel.compute_free_cooling_ratio c =
        1 - (c.outdoor_temp - c.free_cooling_threshold) /
            (c.target_temp - c.free_cooling_threshold)) ∧
    (∀ c' : CoolingModel, c'.free_cooling_threshold = c.free_cooling_threshold →
      c'.target_temp = c.target_temp → c.outdoor_temp ≤ c'.outdoor_temp →
      CoolingModel.compute_free_cooling_ratio c' ≤
        CoolingModel.compute_free_cooling_ratio c) := by
  refine ⟨fun h => ?_, fun hlt h => ?_, fun h1 h2 => ?_, fun c' hthr htgt hle => ?_⟩
  · unfold CoolingModel.compute_free_cooling_ratio
    rw [if_pos h]
  · unfold CoolingModel.compute_free_cooling_ratio
    rw [if_neg (by linarith), if_pos h]
  · unfold CoolingModel.compute_free_cooling_ratio
    rw [if_neg (by linarith), if_neg (by linarith)]
  · by_cases ha : c'.outdoor_temp ≤ c'.free_cooling_threshold
    · have hoc : c.outdoor_temp ≤ c.free_cooling_threshold := by
        rw [hthr] at ha; linarith
      have e1 : CoolingModel.compute_free_cooling_ratio c' = 1 := by
        unfold CoolingModel.compute_free_cooling_ratio; rw [if_pos ha]
      have e2 : CoolingModel.compute_free_cooling_ratio c = 1 := by
        unfold CoolingModel.compute_free_cooling_ratio; rw [if_pos hoc]
      rw [e1, e2]
    · by_cases hb : c'.target_temp ≤ c'.outdoor_temp
      · have e1 : CoolingModel.compute_free_cooling_ratio c' = 0 := by
          unfold CoolingModel.compute_free_cooling_ratio
          rw [if_neg ha, if_pos hb]
        rw [e1]; exact free_cooling_ratio_nonneg c
      · push_neg at ha hb
        rw [hthr] at ha
        rw [htgt] at hb
        have e1 : CoolingModel.compute_free_cooling_ratio c' =
            1 - (c'.outdoor_temp - c.free_cooling_threshold) /
                (c.target_temp - c.free_cooling_threshold) := by
          unfold CoolingModel.compute_free_cooling_ratio
          rw [hthr, htgt, if_neg (by linarith), if_neg (by linarith)]
        by_cases hc2 : c.outdoor_temp ≤ c.free_cooling_threshold
        · have e2 : CoolingModel.compute_free_cooling_ratio c = 1 := by
            unfold CoolingModel.compute_free_cooling_ratio; rw [if_pos hc2]
          have hd : (0 : ℚ) < c.target_temp - c.free_cooling_threshold := by linarith
          have hge : 0 ≤ (c'.outdoor_temp - c.free_cooling_threshold) /
              (c.target_temp - c.free_cooling_threshold) :=
            div_nonneg (by linarith) (by linarith)
          rw [e1, e2]; linarith
        · push_neg at hc2
          have hcm : c.outdoor_temp < c.target_temp := by linarith
          have e2 : CoolingModel.compute_free_cooling_ratio c =
              1 - (c.outdoor_temp - c.free_cooling_threshold) /
                  (c.target_temp - c.free_cooling_threshold) := by
            unfold CoolingModel.compute_free_cooling_ratio
            rw [if_neg (by linarith), if_neg (by linarith)]
          have hd : (0 : ℚ) < c.target_temp - c.free_cooling_threshold := by linarith
          have hdiv := (div_le_div_right hd).mpr
            (show c.outdoor_temp - c.free_cooling_threshold ≤
              c'.outdoor_temp - c.free_cooling_threshold by linarith)
          rw [e1, e2]; linarith

/-- Witness for C5 at the default thresholds (15 below 22): outdoor 10, 30,
and 20 hit the three branches, and outdoor 25 versus 20 the monotonicity. -/
theorem C5_free_cooling_ratio_spec_witness :
    CoolingModel.compute_free_cooling_ratio { default_cooling with outdoor_temp := 10 } = 1 ∧
    CoolingModel.compute_free_cooling_ratio { default_cooling with outdoor_temp := 30 } = 0 ∧
    CoolingModel.compute_free_cooling_ratio default_cooling =
      1 - (default_cooling.outdoor_temp - default_cooling.free_cooling_threshold) /
          (default_cooling.target_temp - default_cooling.free_cooling_threshold) ∧
    CoolingModel.compute_free_cooling_ratio { default_cooling with outdoor_temp := 25 } ≤
      CoolingModel.compute_free_cooling_ratio default_cooling :=
  ⟨(C5_free_cooling_ratio_spec _).1 (by norm_num [default_cooling]),
   (C5_free_cooling_ratio_spec _).2.1 (by norm_num [default_cooling])
     (by norm_num [default_cooling]),
   (C5_free_cooling_ratio_spec _).2.2.1 (by norm_num [default_cooling])
     (by norm_num [default_cooling]),
   (C5_free_cooling_ratio_spec default_cooling).2.2.2
     { default_cooling with outdoor_temp := 25 } rfl rfl
     (by norm_num [default_cooling])⟩

/-- C6: determine_cooling_mode returns free iff the ratio is at least 0.95,
mechanical iff it is at most 0.10, and hybrid in exactly the remaining
cases. -/
theorem C6_mode_classification (c : CoolingModel) :
    (CoolingModel.determine_cooling_mode c = CoolingMode.free_cooling ↔
      95 / 100 ≤ CoolingModel.compute_free_cooling_ratio c) ∧
    (CoolingModel.determine_cooling_mode c = CoolingMode.mechanical ↔
      CoolingModel.compute_free_cooling_ratio c ≤ 1 / 10) ∧
    (CoolingModel.determine_cooling_mode c = CoolingMode.hybrid ↔
      (1 / 10 < CoolingModel.compute_free_cooling_ratio c ∧
       CoolingModel.compute_free_cooling_ratio c < 95 / 100)) := by
  unfold CoolingModel.determine_cooling_mode
  dsimp only
  split_ifs with h1 h2
  · exact ⟨iff_of_true rfl h1,
      iff_of_false (by decide) (fun hle => by linarith),
      iff_of_false (by decide) (fun hh => by linarith [hh.2])⟩
  · exact ⟨iff_of_false (by decide) h1,
      iff_of_false (by decide) (fun hle => by linarith),
      iff_of_true rfl ⟨h2, lt_of_not_le h1⟩⟩
  · exact ⟨iff_of_false (by decide) h1,
      iff_of_true rfl (not_lt.mp h2),
      iff_of_false (by decide) (fun hh => h2 hh.1)⟩

/-- C9: two cooling models that agree on outdoor temperature, free-cooling
threshold and target temperature record the same operating mode after the
orchestrator applies arbitrary (and possibly different) controller supply
setpoints and runs the update: the controller's cooling parameters never
influence mode selection (its mode suggestion is not consumed at all). -/
theorem C9_mode_noninterference (c₁ c₂ : CoolingModel)
    (outdoor t₁ t₂ dt₁ dt₂ heat₁ heat₂ : ℚ) (p₁ p₂ : CoolingModel × ℚ)
    (hthr : c₁.free_cooling_threshold = c₂.free_cooling_threshold)
    (htgt : c₁.target_temp = c₂.target_temp)
    (e₁ : CoolingModel.update
      (CoolingModel.set_supply_temp (CoolingModel.set_outdoor_temp c₁ outdoor) t₁)
      dt₁ heat₁ = some p₁)
    (e₂ : CoolingModel.update
      (CoolingModel.set_supply_temp (CoolingModel.set_outdoor_temp c₂ outdoor) t₂)
      dt₂ heat₂ = some p₂) :
    p₁.1.current_mode = p₂.1.current_mode := by
  rw [update_records_mode _ _ _ _ e₁, update_records_mode _ _ _ _ e₂]
  exact determine_cooling_mode_congr _ _ rfl hthr htgt

/-- Witness for C9: the default cooling model against a variant with a
different chiller COP, pushed different supply setpoints (16 versus 20), both
updated with zero heat load at outdoor 20: both record hybrid. -/
theorem C9_mode_noninterference_witness :
    w9_pair₁.1.current_mode = w9_pair₂.1.current_mode := by
  have hm₁ : CoolingModel.determine_cooling_mode
      (CoolingModel.set_supply_temp (CoolingModel.set_outdoor_temp default_cooling 20) 16) =
      CoolingMode.hybrid := by
    norm_num [CoolingModel.determine_cooling_mode, CoolingModel.compute_free_cooling_ratio,
      CoolingModel.set_supply_temp, CoolingModel.set_outdoor_temp, default_cooling]
  have hm₂ : CoolingModel.determine_cooling_mode
      (CoolingModel.set_supply_temp
        (CoolingModel.set_outdoor_temp { default_cooling with chiller_cop := 4 } 20) 20) =
      CoolingMode.hybrid := by
    norm_num [CoolingModel.determine_cooling_mode, CoolingModel.compute_free_cooling_ratio,
      CoolingModel.set_supply_temp, CoolingModel.set_outdoor_temp, default_cooling]
  have h₁ : CoolingModel.update
      (CoolingModel.set_supply_temp (CoolingModel.set_outdoor_temp default_cooling 20) 16)
      300 0 = some w9_pair₁ := by
    unfold CoolingModel.update
    rw [hm₁]
    norm_num [CoolingModel.compute_cooling_power, CoolingModel.compute_free_cooling_ratio,
      CoolingModel.update_thermal_state, CoolingModel.set_supply_temp,
      CoolingModel.set_outdoor_temp, default_cooling, w9_pair₁]
  have h₂ : CoolingModel.update
      (CoolingModel.set_supply_temp
        (CoolingModel.set_outdoor_temp { default_cooling with chiller_cop := 4 } 20) 20)
      300 0 = some w9_pair₂ := by
    unfold CoolingModel.update
    rw [hm₂]
    norm_num [CoolingModel.compute_cooling_power, CoolingModel.compute_free_cooling_ratio,
      CoolingModel.update_thermal_state, CoolingModel.set_supply_temp,
      CoolingModel.set_outdoor_temp, default_cooling, w9_pair₂]
  exact C9_mode_noninterference default_cooling { default_cooling with chiller_cop := 4 }
    20 16 20 300 300 0 0 w9_pair₁ w9_pair₂ rfl rfl h₁ h₂

/-- C10: ITLoadModel.compute_power is total whenever the configured
capacities sum to a strictly positive total, and the unguarded division
faults (ZeroDivisionError) when both capacities are zero. -/
theorem C10_compute_power_division_guard (m : ITLoadModel) :
    (0 < ITLoadModel.total_capacity_kw m → (ITLoadModel.compute_power m).isSome) ∧
    (m.base_capacity_kw = 0 → m.flex_capacity_kw = 0 →
      ITLoadModel.compute_power m = none) := by
  constructor
  · intro h
    simp [ITLoadModel.compute_power, h.ne']
  · intro hb hf
    simp [ITLoadModel.compute_power, ITLoadModel.total_capacity_kw, hb, hf]

/-- Witness for C10: the default configuration (1000 kW total) computes a
power value; the both-zero configuration faults. -/
theorem C10_compute_power_division_guard_witness :
    (ITLoadModel.compute_power default_it_load).isSome ∧
    ITLoadModel.compute_power zero_capacity_it_load = none :=
  ⟨(C10_compute_power_division_guard default_it_load).1
      (by norm_num [ITLoadModel.total_capacity_kw, default_it_load]),
   (C10_compute_power_division_guard zero_capacity_it_load).2 rfl rfl⟩


/-- C1: a duration/step-size combination that floor-divides to zero steps
(default timestep 300 s, duration 0 h) executes no steps, but run does not
return an empty-but-valid result: get_results dies on the empty series
(np.min of an empty array raises ValueError), so the call produces no result
structure at all. -/
theorem C1_zero_steps_no_valid_result :
    numSteps 300 0 = 0 ∧
    DataCenterOptimizer.run (mkOptimizer 300 0) const_grid_seq 0 =
      RunOutcome.ok (mkOptimizer 300 0) ∧
    DataCenterOptimizer.get_results (mkOptimizer 300 0) = none ∧
    DataCenterOptimizer.run_results (mkOptimizer 300 0) const_grid_seq 0 = none := by
  have hn : numSteps (300 : ℚ) 0 = 0 := by norm_num [numSteps]
  have hn' : numSteps (mkOptimizer 300 0).timestep 0 = 0 := by
    norm_num [numSteps, mkOptimizer]
  refine ⟨hn, ?_, rfl, ?_⟩
  · unfold DataCenterOptimizer.run
    rw [hn']
    rfl
  · unfold DataCenterOptimizer.run_results DataCenterOptimizer.run
    rw [hn']
    rfl

/-- C7: with timestep 7200 s and duration 4 h the loop should execute
N = 2 steps, but the progress print divides by 3600 // 7200 = 0, so run
raises ZeroDivisionError right after the first step: only one entry reaches
every history series and run never returns. -/
theorem C7_run_crashes_on_long_timestep :
    numSteps 7200 4 = 2 ∧
    ∃ s', DataCenterOptimizer.run (mkOptimizer 7200 0) const_grid_seq 4 =
        RunOutcome.crashed s' ∧ History.allLen s'.history 1 := by
  refine ⟨by norm_num [numSteps]; rfl, ?_⟩
  obtain ⟨s₁, hs₁⟩ := step_isSome (mkOptimizer 7200 0) (const_grid_seq 0)
    (by norm_num [mkOptimizer, default_it_load, ITLoadModel.total_capacity_kw])
    (by norm_num [mkOptimizer, default_cooling])
  have hn : numSteps (mkOptimizer 7200 0).timestep 4 = 2 := by
    norm_num [numSteps, mkOptimizer]
    rfl
  refine ⟨s₁, ?_, ?_⟩
  · unfold DataCenterOptimizer.run
    rw [hn]
    unfold runAux
    rw [hs₁]
    dsimp only
    rw [if_pos (show Int.floor ((3600 : ℚ) / (mkOptimizer 7200 0).timestep) = 0 by
      norm_num [mkOptimizer])]
  · exact step_allLen (mkOptimizer 7200 0) s₁ (const_grid_seq 0) 0 hs₁
      (by simp [History.allLen, mkOptimizer, empty_history])

/-- C8: whenever get_results returns a summary, its total_energy_kwh equals
the sum over the history of total_power_kw · (timestep/3600), exactly, in
exact rational arithmetic. -/
theorem C8_total_energy_aggregation (o : DataCenterOptimizer) (r : Summary)
    (h : DataCenterOptimizer.get_results o = some r) :
    r.total_energy_kwh =
      (o.history.total_power_kw.map (fun p => p * (o.timestep / 3600))).sum := by
  unfold DataCenterOptimizer.get_results at h
  split at h
  · obtain rfl := (Option.some.injEq _ _).mp h
    dsimp only
    rw [sum_map_mul_const]
  · exact absurd h (by simp)

/-- Witness for C8: a one-entry history with total power 120 kW at timestep
300 s aggregates to exactly 10 kWh. -/
theorem C8_total_energy_aggregation_witness :
    sample_summary.total_energy_kwh =
      (sample_state.history.total_power_kw.map
        (fun p => p * (sample_state.timestep / 3600))).sum :=
  C8_total_energy_aggregation sample_state sample_summary (by
    norm_num [DataCenterOptimizer.get_results, sample_state, sample_summary,
      mkOptimizer, empty_history, History.append, npMean, npMin, npMax])

/-- The sinusoid at hour 0: 15 + 10·sin(−π/2) = 5. -/
lemma outdoor_temp_at_zero : outdoor_temp_at 0 = 5 := by
  unfold outdoor_temp_at
  have h : (((0 : ℕ) : ℝ) - 6) * Real.pi / 12 = -(Real.pi / 2) := by
    push_cast; ring
  rw [h, Real.sin_neg, Real.sin_pi_div_two]
  norm_num

/-- sin(5π/12) is strictly below 1 (5π/12 is strictly inside [−π/2, π/2]). -/
lemma sin_five_pi_twelfths_lt_one : Real.sin (5 * Real.pi / 12) < 1 := by
  have hpi := Real.pi_pos
  have h1 : (5 : ℝ) * Real.pi / 12 < Real.pi / 2 := by linarith
  have h2 := Real.strictMonoOn_sin
    (Set.mem_Icc.mpr ⟨by linarith, by linarith⟩)
    (Set.mem_Icc.mpr ⟨by linarith, le_refl (Real.pi / 2)⟩) h1
  rwa [Real.sin_pi_div_two] at h2

/-- The sinusoid at hour 1 differs from its hour-0 value of 5. -/
lemma outdoor_temp_at_one_ne_five : outdoor_temp_at 1 ≠ 5 := by
  unfold outdoor_temp_at
  have h : (((1 : ℕ) : ℝ) - 6) * Real.pi / 12 = -(5 * Real.pi / 12) := by
    push_cast; ring
  rw [h, Real.sin_neg]
  intro hc
  have := sin_five_pi_twelfths_lt_one
  linarith

/-- C3 counterexample: with both clocks started at 00:55:00 (3300 s) and a
300 s timestep, step 0 injects the temperature for the orchestrator's hour 0,
but the grid state captured in the same step carries hour 1 (the grid clock
is advanced before the snapshot), and the sinusoid separates the two hours:
the injected temperature is not the claimed function of the grid-state
hour. -/
theorem C3_counterexample_grid_state_hour :
    injected_outdoor 3300 300 0 ≠ outdoor_temp_at (grid_state_hour 3300 300 0) := by
  have h1 : hour_of (orch_time 3300 300 0) = 0 := rfl
  have h2 : grid_state_hour 3300 300 0 = 1 := rfl
  unfold injected_outdoor
  rw [h1, h2, outdoor_temp_at_zero]
  exact fun hc => outdoor_temp_at_one_ne_five hc.symm

/-- C3 (amended): at every step the injected outdoor temperature equals
15 + 10·sin((h−6)·π/12) where h is the hour of the orchestrator's own clock
at the start of the step (one timestep behind the hour carried by that
step's grid-state snapshot); in particular a 1-step run with the default
timestep starting at hour 0 injects exactly 5.0 °C. -/
theorem C3_outdoor_temp_from_orchestrator_hour :
    (∀ start dt i : ℕ, injected_outdoor start dt i =
      15 + 10 * Real.sin (((hour_of (start + i * dt) : ℝ) - 6) * Real.pi / 12)) ∧
    injected_outdoor 0 300 0 = 5 := by
  constructor
  · intro start dt i
    rfl
  · have h : hour_of (orch_time 0 300 0) = 0 := rfl
    unfold injected_outdoor
    rw [h, outdoor_temp_at_zero]
